import Mathlib

/-!
Shallow embedding of the forecast orchestration and overlay pipeline of
`predictive_space_disaster_globe_frontend_prediction_engine.jsx`:
the `usePredictionEngine` request client (`infer`, abort controllers),
the `RiskForecastOverlay` poll cycle (`fetchAll`) and per-feature
rendering, and the `GeoPolygon` ring extraction.

JavaScript dynamic values are modelled by the inductive `JVal`;
operations that can raise a `TypeError` return `Except String`.
Numbers are modelled by `ℚ`; an arithmetic result of `NaN` is modelled
as `none : Option ℚ`.
-/

/-- A JavaScript/JSON value as it flows through the overlay pipeline. -/
inductive JVal where
  | jnull
  | undefined
  | bool (b : Bool)
  | num (q : ℚ)
  | str (s : String)
  | arr (elems : List JVal)
  | obj (fields : List (String × JVal))

/-- JavaScript truthiness test: `null`, `undefined`, `false`, `0` and the
empty string are falsy; every array and object (even empty) is truthy. -/
def jsFalsy : JVal → Bool
  | .jnull => true
  | .undefined => true
  | .bool b => !b
  | .num q => decide (q = 0)
  | .str s => s == ""
  | .arr _ => false
  | .obj _ => false

/-- Property access `v.k` on a value known not to be `null`/`undefined`:
returns the field of an object (first binding wins; the source never
builds duplicate keys) and `undefined` on every other base value. -/
def getPropD : JVal → String → JVal
  | .obj fields, k =>
    match fields.lookup k with
    | some v => v
    | none => .undefined
  | _, _ => .undefined

/-- Property access `v.k` in full: reading a property of `null` or
`undefined` throws a `TypeError`. -/
def jsGetProp (v : JVal) (k : String) : Except String JVal :=
  match v with
  | .jnull => .error "TypeError: cannot read properties of null or undefined"
  | .undefined => .error "TypeError: cannot read properties of null or undefined"
  | _ => .ok (getPropD v k)

/-- Indexing `v[i]`: element of an array (or `undefined` past the end),
one-character string of a string, `undefined` on other non-null bases,
and a `TypeError` on `null`/`undefined`. -/
def jsIndex (v : JVal) (i : Nat) : Except String JVal :=
  match v with
  | .jnull => .error "TypeError: cannot read properties of null or undefined"
  | .undefined => .error "TypeError: cannot read properties of null or undefined"
  | .arr xs => .ok (xs.getD i .undefined)
  | .str s =>
    .ok (match s.toList.get? i with
         | some c => .str (String.mk [c])
         | none => .undefined)
  | _ => .ok .undefined

/-- Array destructuring `const [a, b] = v`: arrays and strings are
iterable (missing positions give `undefined`), everything else throws. -/
def destructure2 : JVal → Except String (JVal × JVal)
  | .arr xs => .ok (xs.getD 0 .undefined, xs.getD 1 .undefined)
  | .str s =>
    .ok ((match s.toList.get? 0 with
          | some c => JVal.str (String.mk [c])
          | none => JVal.undefined),
         (match s.toList.get? 1 with
          | some c => JVal.str (String.mk [c])
          | none => JVal.undefined))
  | _ => .error "TypeError: value is not iterable"

/-- Optional chaining `v?.k`: `undefined` when the base is nullish,
otherwise plain property access. -/
def optChain (v : JVal) (k : String) : JVal :=
  match v with
  | .jnull => .undefined
  | .undefined => .undefined
  | _ => getPropD v k

/-- Nullish coalescing `v ?? d`. -/
def jsNullish (v d : JVal) : JVal :=
  match v with
  | .jnull => d
  | .undefined => d
  | _ => v

/-- Logical or `a || b` on values. -/
def jsOr (a b : JVal) : JVal :=
  if jsFalsy a then b else a

/-- Strict comparison `v === "lit"` of a value against a string literal. -/
def jsStrEq (v : JVal) (s : String) : Bool :=
  match v with
  | .str t => t == s
  | _ => false

/-- `Array.isArray`. -/
def isArrB : JVal → Bool
  | .arr _ => true
  | _ => false

/-- Numeric coercion used when a value meets `*`/`Math.min`: numbers are
themselves, `null` is `0`, booleans are `0`/`1`, the empty string is `0`;
`undefined` is `NaN` (`none`). Numeric-string parsing and array/object
`toPrimitive` coercion are not modelled (`none`); no claim exercises
them — every claim uses a numeric or absent `risk`. -/
def toNumber : JVal → Option ℚ
  | .num q => some q
  | .jnull => some 0
  | .bool b => some (if b then 1 else 0)
  | .str s => if s == "" then some 0 else none
  | .undefined => none
  | .arr _ => none
  | .obj _ => none

/-- `Math.min` on two non-`NaN` numbers. -/
def jsMin (a b : ℚ) : ℚ := if a ≤ b then a else b

/-- The ring-selection test of `GeoPolygon`:
`Array.isArray(coordinates[0][0]) && typeof coordinates[0][0][0] === "number"`, applied to the already-computed value of `coordinates[0][0]`
(indexing an array never throws, so the second conjunct is total). -/
def ringCondB : JVal → Bool
  | .arr xs =>
    match xs.getD 0 .undefined with
    | .num _ => true
    | _ => false
  | _ => false

/-- `ring.map(([lon, lat]) => ...)` over the elements of an array:
each element is destructured; a non-iterable element throws, aborting
the whole map.  The produced vertex keeps the raw `(lon, lat)` pair
handed to `latLongToVector3(lat, lon, altitude)`. -/
def ringToPts : List JVal → Except String (List (JVal × JVal))
  | [] => .ok []
  | p :: rest =>
    match destructure2 p with
    | .error e => .error e
    | .ok pr =>
      match ringToPts rest with
      | .error e => .error e
      | .ok prs => .ok (pr :: prs)

/-- `ring.map` itself: `.map` exists only on arrays; calling it on any
other value throws a `TypeError`. -/
def jsMapRing : JVal → Except String (List (JVal × JVal))
  | .arr xs => ringToPts xs
  | _ => .error "TypeError: ring.map is not a function"

/-- The `pts` computation of `GeoPolygon`:
`if (!coordinates || !Array.isArray(coordinates)) return [];` then
`ring = Array.isArray(coordinates[0][0]) && typeof coordinates[0][0][0] === "number" ? coordinates[0] : coordinates[0][0] || []` and
`ring.map(([lon, lat]) => latLongToVector3(lat, lon, altitude))`.
Evaluating `coordinates[0][0]` throws when `coordinates` is an empty
array (so `coordinates[0]` is `undefined`). -/
def geoPolygonPts (coordinates : JVal) : Except String (List (JVal × JVal)) :=
  if jsFalsy coordinates || !(isArrB coordinates) then .ok []
  else
    match jsIndex coordinates 0 with
    | .error e => .error e
    | .ok c0 =>
      match jsIndex c0 0 with
      | .error e => .error e
      | .ok c00 =>
        jsMapRing (if ringCondB c00 then c0 else jsOr c00 (.arr []))

/-- The configured disaster kinds (`["fires", "floods", "landslides"]`). -/
inductive Disaster where
  | fires
  | floods
  | landslides
deriving DecidableEq

/-- Loop order of `fetchAll`: `const disasters = ["fires", "floods", "landslides"]`. -/
def disasters : List Disaster := [.fires, .floods, .landslides]

/-- One entry of the `disasterStyle` table. -/
structure Style where
  color : String
  altOffset : ℚ
deriving DecidableEq

/-- The static `disasterStyle` table of `RiskForecastOverlay`. -/
def disasterStyle : Disaster → Style
  | .fires => { color := "#ff6600", altOffset := 2/100 }
  | .floods => { color := "#0066ff", altOffset := 25/1000 }
  | .landslides => { color := "#ffcc00", altOffset := 18/1000 }

/-- A render primitive emitted by the overlay: either a `GeoPoint`
element (raw `lat`/`lon` props, sphere size — `none` meaning `NaN` —
color and altitude) or a `GeoPolygon` line strip (one vertex per ring
coordinate, kept as the raw `(lon, lat)` pairs, with opacity and the
altitude passed to `latLongToVector3`). -/
inductive Prim where
  | point (lat lon : JVal) (size : Option ℚ) (color : String) (altitude : ℚ)
  | lineStrip (verts : List (JVal × JVal)) (color : String) (opacity : ℚ) (altitude : ℚ)

/-- The risk read in the Point branch: `feat.properties?.risk`. -/
def riskOf (feat : JVal) : JVal :=
  optChain (getPropD feat "properties") "risk"

/-- The per-feature body of `features.map` in `RiskForecastOverlay`:
`if (!feat || !feat.geometry) return null;` then one `GeoPoint` per
Point (risk `?? 0.5`, `size = 0.006 + Math.min(0.03, risk * 0.08)`,
altitude `1 + style.altOffset ? 1 + style.altOffset : 0.02`), one
`GeoPolygon` per Polygon (`geom.coordinates`) or MultiPolygon
(`geom.coordinates[0]`) at altitude `0.01 + horizonIdx * 0.002` with
opacity `0.22` — `GeoPolygon` renders nothing when its `pts` come out
empty — and nothing (`null`) for every other geometry type. -/
def renderFeature (feat : JVal) (style : Style) (horizonIdx : Nat) : Except String (List Prim) :=
  if jsFalsy feat || jsFalsy (getPropD feat "geometry") then .ok []
  else
    let geom := getPropD feat "geometry"
    if jsStrEq (getPropD geom "type") "Point" then
      match destructure2 (getPropD geom "coordinates") with
      | .error e => .error e
      | .ok lonlat =>
        let risk := jsNullish (riskOf feat) (.num (1/2))
        let size := (toNumber risk).map (fun q => 6/1000 + jsMin (3/100) (q * (8/100)))
        let altitude : ℚ := if (1 : ℚ) + style.altOffset = 0 then 2/100 else 1 + style.altOffset
        .ok [.point lonlat.2 lonlat.1 size style.color altitude]
    else if jsStrEq (getPropD geom "type") "Polygon" || jsStrEq (getPropD geom "type") "MultiPolygon" then
      match (if jsStrEq (getPropD geom "type") "Polygon"
             then .ok (getPropD geom "coordinates")
             else jsIndex (getPropD geom "coordinates") 0) with
      | .error e => .error e
      | .ok coords =>
        match geoPolygonPts coords with
        | .error e => .error e
        | .ok pts =>
          .ok (if pts.isEmpty then []
               else [.lineStrip pts style.color (22/100) (1/100 + (horizonIdx : ℚ) * (2/1000))])
    else .ok []

/-- The whole `features.map(...)` of one `(disaster, horizon)` group:
the emitted primitives of each feature in order; a throw at any feature
aborts the whole render pass. -/
def renderCell (features : List JVal) (style : Style) (horizonIdx : Nat) : Except String (List Prim) :=
  match features with
  | [] => .ok []
  | f :: rest =>
    match renderFeature f style horizonIdx with
    | .error e => .error e
    | .ok ps =>
      match renderCell rest style horizonIdx with
      | .error e => .error e
      | .ok qs => .ok (ps ++ qs)

/-- An HTTP response as seen by `infer`: `res.status`, the text read in
the error branch, and the parsed JSON body.  A network failure, an
abort, or a JSON-parse failure of the body is modelled as the fetch
outcome being `Except.error` instead of a `Response`. -/
structure Response where
  status : Nat
  bodyText : String
  json : JVal

/-- `res.ok`: status in the 2xx range (200–299). -/
def Response.resOk (r : Response) : Bool :=
  decide (200 ≤ r.status) && decide (r.status < 300)

/-- Orchestrator-mode `infer` applied to the outcome of its `fetch`:
a rejected fetch propagates; a non-2xx response throws an `Error`
whose message is the text `Inference request failed:` followed by
`res.status` and the body text; otherwise the value of
`json.geojson || json` resolves (reading `.geojson` itself throws when
the parsed body is `null`). -/
def infer (fetched : Except String Response) : Except String JVal :=
  match fetched with
  | .error e => .error e
  | .ok res =>
    if !res.resOk then
      .error ("Inference request failed: " ++ toString res.status ++ " " ++ res.bodyText)
    else
      match jsGetProp res.json "geojson" with
      | .error e => .error e
      | .ok g => .ok (jsOr g res.json)

/-- The per-cell feature extraction of `fetchAll` around one `infer`
call: a throw is caught and mapped to `[]`; on success,
`geojson && Array.isArray(geojson.features) ? geojson.features : []`. -/
def cellFeatures (r : Except String JVal) : List JVal :=
  match r with
  | .error _ => []
  | .ok geojson =>
    if jsFalsy geojson then []
    else
      match getPropD geojson "features" with
      | .arr xs => xs
      | _ => []

/-- The forecast cache: `predictions[d][h]`, `none` meaning the key is
absent from the per-disaster object. -/
def Snapshot := Disaster → Nat → Option (List JVal)

/-- `{ fires: {}, floods: {}, landslides: {} }`. -/
def emptySnapshot : Snapshot := fun _ _ => none

/-- `newPred[d][h] = features`. -/
def snapUpdate (s : Snapshot) (d : Disaster) (h : Nat) (v : List JVal) : Snapshot :=
  fun d' h' => if d' = d ∧ h' = h then some v else s d' h'

/-- A deterministic backend: the fetch outcome of each
`(disaster, horizonHours)` request. -/
def Backend := Disaster → Nat → Except String Response

/-- The features a completed cycle stores for one grid cell. -/
def cellOutcome (b : Backend) (d : Disaster) (h : Nat) : List JVal :=
  cellFeatures (infer (b d h))

/-- Externally visible events of a poll cycle: issuing the network
request of one grid cell, the unmount cleanup aborting every registered
controller, and publishing a snapshot via `setPredictions`. -/
inductive Event where
  | request (d : Disaster) (h : Nat)
  | abortAll
  | publish (snap : Snapshot)

/-- Recognizer for request events. -/
def Event.isRequest : Event → Bool
  | .request _ _ => true
  | _ => false

/-- Recognizer for the abort-all cleanup event. -/
def Event.isAbortAll : Event → Bool
  | .abortAll => true
  | _ => false

/-- Recognizer for publish events. -/
def Event.isPublish : Event → Bool
  | .publish _ => true
  | _ => false

/-- Body of the inner `for (const h of hoursList)` loop of `fetchAll`:
issue the cell's request and store its outcome (features on success,
`[]` on a caught failure) into `newPred`. -/
def cellStep (b : Backend) (d : Disaster) (acc : List Event × Snapshot) (h : Nat) :
    List Event × Snapshot :=
  (acc.1 ++ [.request d h], snapUpdate acc.2 d h (cellOutcome b d h))

/-- Body of the outer `for (const d of disasters)` loop of `fetchAll`. -/
def disasterStep (b : Backend) (hours : List Nat) (acc : List Event × Snapshot) (d : Disaster) :
    List Event × Snapshot :=
  hours.foldl (cellStep b d) acc

/-- The grid loops of `fetchAll`, started from the fresh
`newPred = { fires: {}, floods: {}, landslides: {} }`. -/
def fetchAllCore (b : Backend) (hours : List Nat) : List Event × Snapshot :=
  disasters.foldl (disasterStep b hours) ([], emptySnapshot)

/-- One completed (still-mounted) `fetchAll` cycle: all grid cells in
loop order, then the single `setPredictions(newPred)`. -/
def fetchAll (b : Backend) (hours : List Nat) : List Event × Snapshot :=
  ((fetchAllCore b hours).1 ++ [.publish (fetchAllCore b hours).2], (fetchAllCore b hours).2)

/-- The grid of cells in the loop order of `fetchAll`. -/
def gridCells (hours : List Nat) : List (Disaster × Nat) :=
  disasters.flatMap (fun d => hours.map (fun h => (d, h)))

/-- A `fetchAll` cycle interleaved with the unmount cleanup after `k`
cells have resolved: the cleanup (`mounted = false`, `clearInterval`,
and the hook's `forEach((c) => c.abort())`) runs at an await boundary,
but the loop body contains no `mounted` check, so the remaining cells'
requests are still issued when the loop resumes (the aborted in-flight
call is caught like any other failure), and the final
`if (!mounted) return;` suppresses the publish. -/
def fetchAllWithStop (hours : List Nat) (k : Nat) : List Event :=
  ((gridCells hours).take k).map (fun c => Event.request c.1 c.2)
    ++ [Event.abortAll]
    ++ ((gridCells hours).drop k).map (fun c => Event.request c.1 c.2)

/-- A `fetchAll` cycle interleaved with the overlay being disabled
(`enabled` turning false with the component still mounted) after `k`
cells have resolved: only the polling effect's cleanup runs
(`mounted = false` and `clearInterval(intv)`), while the hook's
abort-all cleanup has an empty dependency array and so runs only at
unmount — no handle is aborted, the loop issues the remaining cells'
requests exactly as in the stop case, and the `if (!mounted) return;`
guard suppresses the publish.  Split at the boundary `k` to mirror
`fetchAllWithStop`: where that trace carries its `abortAll` event, this
one carries nothing. -/
def fetchAllWithDisable (hours : List Nat) (k : Nat) : List Event :=
  ((gridCells hours).take k).map (fun c => Event.request c.1 c.2)
    ++ ((gridCells hours).drop k).map (fun c => Event.request c.1 c.2)

/-- One cancellation handle of the `abortControllers` registry held by
`usePredictionEngine`. -/
structure AbortHandle where
  key : String
  aborted : Bool

/-- The unmount cleanup's
`Object.values(abortControllers.current).forEach((c) => c.abort());`:
a total function — `AbortController.abort()` never throws — that
signals every registered handle. -/
def abortAllHandles (cs : List AbortHandle) : List AbortHandle :=
  cs.map (fun c => { c with aborted := true })

/-- A backend with internal state `σ` threaded through consecutive
requests (request log, counters, caches …). -/
def BackendSt (σ : Type) := σ → Disaster → Nat → Except String Response × σ

/-- Body of the inner hours loop over a stateful backend: same cell
update as `cellStep`, threading the backend state. -/
def cellStepSt {σ : Type} (b : BackendSt σ) (d : Disaster) (acc : Snapshot × σ) (h : Nat) :
    Snapshot × σ :=
  (snapUpdate acc.1 d h (cellFeatures (infer (b acc.2 d h).1)), (b acc.2 d h).2)

/-- Body of the outer disasters loop over a stateful backend. -/
def disasterStepSt {σ : Type} (b : BackendSt σ) (hours : List Nat) (acc : Snapshot × σ)
    (d : Disaster) : Snapshot × σ :=
  hours.foldl (cellStepSt b d) acc

/-- The grid loops of `fetchAll` over a stateful backend, threading the
backend state through the requests in loop order. -/
def fetchAllSt {σ : Type} (b : BackendSt σ) (hours : List Nat) (s0 : σ) : Snapshot × σ :=
  disasters.foldl (disasterStepSt b hours) (emptySnapshot, s0)

/-- A sample Point feature with `risk = 0.7`, used as backend payload in
concrete cycle runs. -/
def demoFeature : JVal :=
  .obj [("type", .str "Feature"),
        ("geometry", .obj [("type", .str "Point"), ("coordinates", .arr [.num 10, .num 20])]),
        ("properties", .obj [("risk", .num (7/10))])]

/-- A 200 response whose body wraps the collection:
`{ geojson: { type: "FeatureCollection", features: [demoFeature] } }`. -/
def demoResponse : Response :=
  { status := 200,
    bodyText := "",
    json := .obj [("geojson",
      .obj [("type", .str "FeatureCollection"), ("features", .arr [demoFeature])])] }

/-- A 200 response whose body is a bare FeatureCollection with no
features. -/
def bareResponse : Response :=
  { status := 200,
    bodyText := "",
    json := .obj [("type", .str "FeatureCollection"), ("features", .arr [])] }

/-- A 500 response with body text `"boom"`. -/
def failResponse : Response :=
  { status := 500, bodyText := "boom", json := .jnull }

/-- A backend that fails exactly at the `(floods, 12)` cell and returns
`demoResponse` everywhere else. -/
def demoBackend : Backend :=
  fun d h => if d = .floods ∧ h = 12 then .ok failResponse else .ok demoResponse

/-- A stateful backend that counts its requests but always answers
`demoResponse`: its responses do not depend on the state. -/
def counterBackend : BackendSt Nat :=
  fun s _ _ => (.ok demoResponse, s + 1)

/-- A Point feature with `risk = 0.9`. -/
def pointFeat09 : JVal :=
  .obj [("geometry", .obj [("type", .str "Point"), ("coordinates", .arr [.num 0, .num 0])]),
        ("properties", .obj [("risk", .num (9/10))])]

/-- A Point feature with the out-of-range `risk = -1`. -/
def pointFeatNeg : JVal :=
  .obj [("geometry", .obj [("type", .str "Point"), ("coordinates", .arr [.num 0, .num 0])]),
        ("properties", .obj [("risk", .num (-1))])]

/-- A Point feature whose properties carry no `risk` key. -/
def pointFeatNoRisk : JVal :=
  .obj [("geometry", .obj [("type", .str "Point"), ("coordinates", .arr [.num 5, .num 6])]),
        ("properties", .obj [])]

/-- A feature of the unsupported geometry type `LineString`. -/
def lineStringFeat : JVal :=
  .obj [("geometry",
    .obj [("type", .str "LineString"),
          ("coordinates", .arr [.arr [.num 0, .num 0], .arr [.num 1, .num 1]])])]

/-- A Polygon feature with the structurally invalid empty coordinates
array. -/
def polyEmptyFeat : JVal :=
  .obj [("geometry", .obj [("type", .str "Polygon"), ("coordinates", .arr [])])]

/-- A triangle ring `[[0,0],[1,0],[1,1],[0,0]]`. -/
def triRing : List JVal :=
  [.arr [.num 0, .num 0], .arr [.num 1, .num 0], .arr [.num 1, .num 1], .arr [.num 0, .num 0]]

/-- A Polygon feature whose outer ring is `triRing` and which carries a
second (hole) ring that must not be rendered. -/
def triPolyFeat : JVal :=
  .obj [("geometry",
    .obj [("type", .str "Polygon"),
          ("coordinates", .arr [.arr triRing, .arr [.arr [.num 2, .num 2]]])])]

/-- A MultiPolygon feature whose first polygon is the one of
`triPolyFeat` and which carries a second polygon that must not be
rendered. -/
def triMultiPolyFeat : JVal :=
  .obj [("geometry",
    .obj [("type", .str "MultiPolygon"),
          ("coordinates",
            .arr [.arr [.arr triRing, .arr [.arr [.num 2, .num 2]]],
                  .arr [.arr [.arr [.num 3, .num 3]]]])])]

/-- A feature object that lacks the `geometry` key. -/
def noGeomFeat : JVal := .obj [("type", .str "Feature"), ("properties", .obj [])]

/-- The total per-element destructuring `([lon, lat]) => (lon, lat)` on
an element already known to be an array. -/
def destrD : JVal → JVal × JVal
  | .arr xs => (xs.getD 0 .undefined, xs.getD 1 .undefined)
  | _ => (.undefined, .undefined)

/-! ## Helper lemmas -/

theorem getPropD_obj (fs : List (String × JVal)) (k : String) :
    getPropD (.obj fs) k = (match fs.lookup k with | some v => v | none => .undefined) := rfl

theorem renderFeature_point_eq (fs gs : List (String × JVal)) (cs : List JVal)
    (style : Style) (i : Nat)
    (hg : fs.lookup "geometry" = some (.obj gs))
    (ht : gs.lookup "type" = some (.str "Point"))
    (hc : gs.lookup "coordinates" = some (.arr cs)) :
    renderFeature (.obj fs) style i =
      .ok [.point (cs.getD 1 .undefined) (cs.getD 0 .undefined)
            ((toNumber (jsNullish (riskOf (.obj fs)) (.num (1/2)))).map
               (fun q => 6/1000 + jsMin (3/100) (q * (8/100))))
            style.color
            (if (1 : ℚ) + style.altOffset = 0 then 2/100 else 1 + style.altOffset)] := by
  simp [renderFeature, getPropD, hg, ht, hc, jsFalsy, jsStrEq, destructure2]

/-! ## C3 -/

/-- Claim C3 (amended): every Point feature projects to exactly one
primitive of size `0.006 + min(0.03, risk * 0.08)` — risk defaulting to
`0.5` when missing — at altitude `1 + style.altOffset`; for
`risk = 0.9` the clamp makes the size `0.036` (not `0.078`). -/
theorem point_projection_formula (fs gs : List (String × JVal)) (cs : List JVal)
    (style : Style) (i : Nat)
    (hg : fs.lookup "geometry" = some (.obj gs))
    (ht : gs.lookup "type" = some (.str "Point"))
    (hc : gs.lookup "coordinates" = some (.arr cs))
    (halt : (1 : ℚ) + style.altOffset ≠ 0) :
    (∀ q : ℚ, riskOf (.obj fs) = .num q →
      renderFeature (.obj fs) style i =
        .ok [.point (cs.getD 1 .undefined) (cs.getD 0 .undefined)
              (some (6/1000 + jsMin (3/100) (q * (8/100)))) style.color
              (1 + style.altOffset)]) ∧
    ((riskOf (.obj fs) = .undefined ∨ riskOf (.obj fs) = .jnull) →
      renderFeature (.obj fs) style i =
        .ok [.point (cs.getD 1 .undefined) (cs.getD 0 .undefined)
              (some (36/1000)) style.color (1 + style.altOffset)]) ∧
    (riskOf (.obj fs) = .num (9/10) →
      renderFeature (.obj fs) style i =
        .ok [.point (cs.getD 1 .undefined) (cs.getD 0 .undefined)
              (some (36/1000)) style.color (1 + style.altOffset)]) := by
  refine ⟨?_, ?_, ?_⟩
  · intro q hq
    rw [renderFeature_point_eq fs gs cs style i hg ht hc]
    simp [hq, jsNullish, toNumber, halt]
  · intro hq
    rw [renderFeature_point_eq fs gs cs style i hg ht hc]
    rcases hq with hq | hq <;>
      · simp [hq, jsNullish, toNumber, halt]
        norm_num [jsMin]
  · intro hq
    rw [renderFeature_point_eq fs gs cs style i hg ht hc]
    simp [hq, jsNullish, toNumber, halt]
    norm_num [jsMin]

/-- Claim C3, counterexample to the stated value: a Point feature with
`risk = 0.9` under the fires style renders with size `0.036`, and
`0.036 ≠ 0.078` — the clamp `min(0.03, 0.072)` engages, which the
spec's example forgets. -/
theorem point_risk09_size_counterexample :
    renderFeature pointFeat09 (disasterStyle .fires) 0 =
      .ok [.point (.num 0) (.num 0) (some (36/1000)) "#ff6600" (51/50)] ∧
    (36/1000 : ℚ) ≠ 78/1000 := by
  constructor
  · rw [pointFeat09]
    rw [renderFeature_point_eq
        [("geometry", .obj [("type", .str "Point"), ("coordinates", .arr [.num 0, .num 0])]),
         ("properties", .obj [("risk", .num (9/10))])]
        [("type", .str "Point"), ("coordinates", .arr [.num 0, .num 0])]
        [.num 0, .num 0] (disasterStyle .fires) 0 rfl rfl rfl]
    have hr : riskOf (.obj
        [("geometry", .obj [("type", .str "Point"), ("coordinates", .arr [.num 0, .num 0])]),
         ("properties", .obj [("risk", .num (9/10))])]) = .num (9/10) := rfl
    simp [hr, jsNullish, toNumber, disasterStyle]
    norm_num [jsMin]
  · norm_num

/-- Witness for C3's amended theorem at the fires style, horizon index 0:
a risk-0.9 point renders at size `0.036` and altitude `1.02`, and a
point with no risk property renders at the defaulted size `0.036`. -/
theorem point_projection_formula_witness :
    ((1 : ℚ) + (disasterStyle .fires).altOffset ≠ 0) ∧
    renderFeature pointFeat09 (disasterStyle .fires) 0 =
      .ok [.point (.num 0) (.num 0) (some (36/1000)) "#ff6600"
            (1 + (disasterStyle .fires).altOffset)] ∧
    renderFeature pointFeatNoRisk (disasterStyle .fires) 0 =
      .ok [.point (.num 6) (.num 5) (some (36/1000)) "#ff6600"
            (1 + (disasterStyle .fires).altOffset)] := by
  refine ⟨by norm_num [disasterStyle], ?_, ?_⟩
  · exact (point_projection_formula
      [("geometry", .obj [("type", .str "Point"), ("coordinates", .arr [.num 0, .num 0])]),
       ("properties", .obj [("risk", .num (9/10))])]
      [("type", .str "Point"), ("coordinates", .arr [.num 0, .num 0])]
      [.num 0, .num 0] (disasterStyle .fires) 0 rfl rfl rfl
      (by norm_num [disasterStyle])).2.2 rfl
  · exact (point_projection_formula
      [("geometry", .obj [("type", .str "Point"), ("coordinates", .arr [.num 5, .num 6])]),
       ("properties", .obj [])]
      [("type", .str "Point"), ("coordinates", .arr [.num 5, .num 6])]
      [.num 5, .num 6] (disasterStyle .fires) 0 rfl rfl rfl
      (by norm_num [disasterStyle])).2.1 (Or.inl rfl)

/-! ## C6 -/

/-- Claim C6 (amended): the `0.5` default applies exactly when
`properties?.risk` is `null`/`undefined` (absent); a numeric risk is
used as-is with no range validation, so an out-of-range value such as
`-1` flows unclamped into the size (`0.006 + min(0.03, -0.08) = -0.074`
instead of the defaulted `0.036`). -/
theorem risk_defaulting_behavior (fs gs : List (String × JVal)) (cs : List JVal)
    (style : Style) (i : Nat)
    (hg : fs.lookup "geometry" = some (.obj gs))
    (ht : gs.lookup "type" = some (.str "Point"))
    (hc : gs.lookup "coordinates" = some (.arr cs))
    (halt : (1 : ℚ) + style.altOffset ≠ 0) :
    ((riskOf (.obj fs) = .undefined ∨ riskOf (.obj fs) = .jnull) →
      renderFeature (.obj fs) style i =
        .ok [.point (cs.getD 1 .undefined) (cs.getD 0 .undefined)
              (some (36/1000)) style.color (1 + style.altOffset)]) ∧
    (∀ q : ℚ, riskOf (.obj fs) = .num q →
      renderFeature (.obj fs) style i =
        .ok [.point (cs.getD 1 .undefined) (cs.getD 0 .undefined)
              (some (6/1000 + jsMin (3/100) (q * (8/100)))) style.color
              (1 + style.altOffset)]) ∧
    (riskOf (.obj fs) = .num (-1) →
      renderFeature (.obj fs) style i =
        .ok [.point (cs.getD 1 .undefined) (cs.getD 0 .undefined)
              (some (-(74/1000))) style.color (1 + style.altOffset)]) := by
  refine ⟨?_, ?_, ?_⟩
  · intro hq
    rw [renderFeature_point_eq fs gs cs style i hg ht hc]
    rcases hq with hq | hq <;>
      · simp [hq, jsNullish, toNumber, halt]
        norm_num [jsMin]
  · intro q hq
    rw [renderFeature_point_eq fs gs cs style i hg ht hc]
    simp [hq, jsNullish, toNumber, halt]
  · intro hq
    rw [renderFeature_point_eq fs gs cs style i hg ht hc]
    simp [hq, jsNullish, toNumber, halt]
    norm_num [jsMin]

/-- Claim C6, counterexample: an out-of-range `risk = -1` is NOT
replaced by the `0.5` default — the rendered size is `-0.074`, while
defaulting to `0.5` would give `0.036`. -/
theorem risk_out_of_range_counterexample :
    renderFeature pointFeatNeg (disasterStyle .fires) 0 =
      .ok [.point (.num 0) (.num 0) (some (-(74/1000))) "#ff6600" (51/50)] ∧
    (-(74/1000) : ℚ) ≠ 36/1000 := by
  constructor
  · rw [pointFeatNeg]
    rw [renderFeature_point_eq
        [("geometry", .obj [("type", .str "Point"), ("coordinates", .arr [.num 0, .num 0])]),
         ("properties", .obj [("risk", .num (-1))])]
        [("type", .str "Point"), ("coordinates", .arr [.num 0, .num 0])]
        [.num 0, .num 0] (disasterStyle .fires) 0 rfl rfl rfl]
    have hr : riskOf (.obj
        [("geometry", .obj [("type", .str "Point"), ("coordinates", .arr [.num 0, .num 0])]),
         ("properties", .obj [("risk", .num (-1))])]) = .num (-1) := rfl
    simp [hr, jsNullish, toNumber, disasterStyle]
    norm_num [jsMin]
  · norm_num

/-- Witness for C6's amended theorem: the absent-risk point takes the
default size `0.036`, and `risk = -1` flows through unclamped. -/
theorem risk_defaulting_behavior_witness :
    ((1 : ℚ) + (disasterStyle .fires).altOffset ≠ 0) ∧
    renderFeature pointFeatNoRisk (disasterStyle .fires) 0 =
      .ok [.point (.num 6) (.num 5) (some (36/1000)) "#ff6600"
            (1 + (disasterStyle .fires).altOffset)] ∧
    renderFeature pointFeatNeg (disasterStyle .fires) 0 =
      .ok [.point (.num 0) (.num 0) (some (-(74/1000))) "#ff6600"
            (1 + (disasterStyle .fires).altOffset)] := by
  refine ⟨by norm_num [disasterStyle], ?_, ?_⟩
  · exact (risk_defaulting_behavior
      [("geometry", .obj [("type", .str "Point"), ("coordinates", .arr [.num 5, .num 6])]),
       ("properties", .obj [])]
      [("type", .str "Point"), ("coordinates", .arr [.num 5, .num 6])]
      [.num 5, .num 6] (disasterStyle .fires) 0 rfl rfl rfl
      (by norm_num [disasterStyle])).1 (Or.inl rfl)
  · exact (risk_defaulting_behavior
      [("geometry", .obj [("type", .str "Point"), ("coordinates", .arr [.num 0, .num 0])]),
       ("properties", .obj [("risk", .num (-1))])]
      [("type", .str "Point"), ("coordinates", .arr [.num 0, .num 0])]
      [.num 0, .num 0] (disasterStyle .fires) 0 rfl rfl rfl
      (by norm_num [disasterStyle])).2.2 rfl

/-! ## C5 -/

/-- Claim C5 (amended): a feature whose geometry type is none of
`Point`/`Polygon`/`MultiPolygon` yields no primitives and no error; but
structurally invalid coordinates of a recognized type are NOT guarded —
they can throw from the render pass. -/
theorem unknown_geometry_skipped (fs gs : List (String × JVal)) (style : Style) (i : Nat)
    (t : String)
    (hg : fs.lookup "geometry" = some (.obj gs))
    (ht : gs.lookup "type" = some (.str t))
    (h1 : t ≠ "Point") (h2 : t ≠ "Polygon") (h3 : t ≠ "MultiPolygon") :
    renderFeature (.obj fs) style i = .ok [] := by
  simp [renderFeature, getPropD, hg, ht, jsFalsy, jsStrEq, beq_iff_eq, h1, h2, h3]

/-- Claim C5, counterexample to the invalid-coordinates half: a Polygon
feature with the structurally invalid `coordinates: []` makes the
renderer evaluate `coordinates[0][0]` on `undefined` and throw a
`TypeError` instead of being silently skipped. -/
theorem invalid_coordinates_throw_counterexample :
    renderFeature polyEmptyFeat (disasterStyle .fires) 0 =
      .error "TypeError: cannot read properties of null or undefined" := by
  rfl

/-- Witness for C5's amended theorem: a `LineString` feature renders to
no primitives without throwing. -/
theorem unknown_geometry_skipped_witness :
    ("LineString" ≠ "Point" ∧ "LineString" ≠ "Polygon" ∧ "LineString" ≠ "MultiPolygon") ∧
    renderFeature lineStringFeat (disasterStyle .floods) 0 = .ok [] := by
  refine ⟨⟨by decide, by decide, by decide⟩, ?_⟩
  exact unknown_geometry_skipped
    [("geometry",
      .obj [("type", .str "LineString"),
            ("coordinates", .arr [.arr [.num 0, .num 0], .arr [.num 1, .num 1]])])]
    [("type", .str "LineString"),
     ("coordinates", .arr [.arr [.num 0, .num 0], .arr [.num 1, .num 1]])]
    (disasterStyle .floods) 0 "LineString" rfl rfl
    (by decide) (by decide) (by decide)

/-! ## C7 -/

theorem ringToPts_all_arr (xs : List JVal) (h : ∀ p ∈ xs, ∃ l, p = JVal.arr l) :
    ringToPts xs = .ok (xs.map destrD) := by
  induction xs with
  | nil => rfl
  | cons p rest ih =>
    obtain ⟨l, rfl⟩ := h p (List.mem_cons_self p rest)
    simp [ringToPts, destructure2, destrD,
      ih (fun p hp => h p (List.mem_cons_of_mem _ hp))]

theorem geoPolygonPts_outer_ring (q : ℚ) (t0 ps rings : List JVal)
    (hps : ∀ p ∈ ps, ∃ l, p = JVal.arr l) :
    geoPolygonPts (.arr (JVal.arr (JVal.arr (.num q :: t0) :: ps) :: rings)) =
      .ok ((JVal.arr (JVal.num q :: t0) :: ps).map destrD) := by
  have h' : ∀ p ∈ JVal.arr (JVal.num q :: t0) :: ps, ∃ l, p = JVal.arr l := by
    intro p hp
    rcases List.mem_cons.mp hp with rfl | hp
    · exact ⟨_, rfl⟩
    · exact hps p hp
  simp [geoPolygonPts, jsFalsy, isArrB, jsIndex, ringCondB, jsMapRing,
    ringToPts_all_arr _ h']

/-- Claim C7: a Polygon renders only its outer ring `coordinates[0]`
(holes untouched) as a line strip with one vertex per ring coordinate
at altitude `0.01 + horizonIndex * 0.002`; a MultiPolygon renders only
its first constituent polygon under the same outer-ring rule. -/
theorem polygon_outer_ring_rendering (fs gs : List (String × JVal)) (style : Style) (i : Nat)
    (q : ℚ) (t0 ps rings polys : List JVal)
    (hg : fs.lookup "geometry" = some (.obj gs))
    (hps : ∀ p ∈ ps, ∃ l, p = JVal.arr l) :
    (gs.lookup "type" = some (.str "Polygon") →
     gs.lookup "coordinates" = some (.arr (JVal.arr (JVal.arr (.num q :: t0) :: ps) :: rings)) →
      renderFeature (.obj fs) style i =
        .ok [.lineStrip ((JVal.arr (JVal.num q :: t0) :: ps).map destrD) style.color (22/100)
              (1/100 + (i : ℚ) * (2/1000))] ∧
      ((JVal.arr (JVal.num q :: t0) :: ps).map destrD).length = ps.length + 1) ∧
    (gs.lookup "type" = some (.str "MultiPolygon") →
     gs.lookup "coordinates" =
       some (.arr (JVal.arr (JVal.arr (JVal.arr (.num q :: t0) :: ps) :: rings) :: polys)) →
      renderFeature (.obj fs) style i =
        .ok [.lineStrip ((JVal.arr (JVal.num q :: t0) :: ps).map destrD) style.color (22/100)
              (1/100 + (i : ℚ) * (2/1000))] ∧
      ((JVal.arr (JVal.num q :: t0) :: ps).map destrD).length = ps.length + 1) := by
  constructor
  · intro ht hc
    refine ⟨?_, by simp⟩
    simp [renderFeature, getPropD, hg, ht, hc, jsFalsy, jsStrEq,
      geoPolygonPts_outer_ring q t0 ps rings hps]
  · intro ht hc
    refine ⟨?_, by simp⟩
    simp [renderFeature, getPropD, hg, ht, hc, jsFalsy, jsStrEq, jsIndex,
      geoPolygonPts_outer_ring q t0 ps rings hps]

/-- Witness for C7: a triangle Polygon carrying a hole ring, and a
MultiPolygon carrying a second polygon, both render exactly the outer
ring of the first polygon — 4 vertices at altitude
`0.01 + 1 * 0.002`. -/
theorem polygon_outer_ring_rendering_witness :
    (renderFeature triPolyFeat (disasterStyle .fires) 1 =
      .ok [.lineStrip (triRing.map destrD) "#ff6600" (22/100) (1/100 + (1 : ℚ) * (2/1000))] ∧
     (triRing.map destrD).length = 4) ∧
    (renderFeature triMultiPolyFeat (disasterStyle .fires) 1 =
      .ok [.lineStrip (triRing.map destrD) "#ff6600" (22/100) (1/100 + (1 : ℚ) * (2/1000))] ∧
     (triRing.map destrD).length = 4) := by
  constructor
  · exact (polygon_outer_ring_rendering
      [("geometry",
        .obj [("type", .str "Polygon"),
              ("coordinates", .arr [.arr triRing, .arr [.arr [.num 2, .num 2]]])])]
      [("type", .str "Polygon"),
       ("coordinates", .arr [.arr triRing, .arr [.arr [.num 2, .num 2]]])]
      (disasterStyle .fires) 1 0 [.num 0]
      [.arr [.num 1, .num 0], .arr [.num 1, .num 1], .arr [.num 0, .num 0]]
      [.arr [.arr [.num 2, .num 2]]] [] rfl
      (by intro p hp; simp at hp; rcases hp with rfl | rfl | rfl <;> exact ⟨_, rfl⟩)).1
      rfl rfl
  · exact (polygon_outer_ring_rendering
      [("geometry",
        .obj [("type", .str "MultiPolygon"),
              ("coordinates",
                .arr [.arr [.arr triRing, .arr [.arr [.num 2, .num 2]]],
                      .arr [.arr [.arr [.num 3, .num 3]]]])])]
      [("type", .str "MultiPolygon"),
       ("coordinates",
         .arr [.arr [.arr triRing, .arr [.arr [.num 2, .num 2]]],
               .arr [.arr [.arr [.num 3, .num 3]]]])]
      (disasterStyle .fires) 1 0 [.num 0]
      [.arr [.num 1, .num 0], .arr [.num 1, .num 1], .arr [.num 0, .num 0]]
      [.arr [.arr [.num 2, .num 2]]] [.arr [.arr [.arr [.num 3, .num 3]]]] rfl
      (by intro p hp; simp at hp; rcases hp with rfl | rfl | rfl <;> exact ⟨_, rfl⟩)).2
      rfl rfl

/-! ## C10 -/

theorem renderCell_skips_empty (style : Style) (i : Nat) (f : JVal)
    (hf : renderFeature f style i = .ok []) :
    ∀ xs ys, renderCell (xs ++ f :: ys) style i = renderCell (xs ++ ys) style i := by
  intro xs
  induction xs with
  | nil =>
    intro ys
    simp only [List.nil_append]
    rw [renderCell, hf]
    cases h : renderCell ys style i <;> simp [h]
  | cons x xs ih =>
    intro ys
    simp only [List.cons_append]
    rw [renderCell, renderCell]
    cases renderFeature x style i <;> simp [ih ys]

/-- Claim C10: a `null`/`undefined` entry of a cell's feature list, or
one lacking a `geometry` field, renders to no primitives without
throwing, and removing such an entry leaves the rest of the cell's
render output unchanged. -/
theorem null_or_missing_geometry_skipped (style : Style) (i : Nat) :
    renderFeature .jnull style i = .ok [] ∧
    renderFeature .undefined style i = .ok [] ∧
    (∀ fs, fs.lookup "geometry" = none → renderFeature (.obj fs) style i = .ok []) ∧
    (∀ f xs ys, renderFeature f style i = .ok [] →
      renderCell (xs ++ f :: ys) style i = renderCell (xs ++ ys) style i) := by
  refine ⟨rfl, rfl, ?_, ?_⟩
  · intro fs h
    simp [renderFeature, getPropD, h, jsFalsy]
  · intro f xs ys hf
    exact renderCell_skips_empty style i f hf xs ys

/-- Witness for C10: the geometry-less feature renders to nothing, and
a `null` entry sitting after a real point feature changes nothing about
the cell's output. -/
theorem null_or_missing_geometry_skipped_witness :
    renderFeature noGeomFeat (disasterStyle .fires) 0 = .ok [] ∧
    renderCell [pointFeat09, .jnull] (disasterStyle .fires) 0 =
      renderCell [pointFeat09] (disasterStyle .fires) 0 := by
  constructor
  · exact (null_or_missing_geometry_skipped (disasterStyle .fires) 0).2.2.1
      [("type", .str "Feature"), ("properties", .obj [])] rfl
  · exact (null_or_missing_geometry_skipped (disasterStyle .fires) 0).2.2.2
      .jnull [pointFeat09] [] rfl

/-! ## C8 -/

/-- Claim C8: on a 2xx response `infer` resolves with `json.geojson`
when that field holds a (truthy) value and with the whole body when the
field is absent — accepting both the wrapped and the bare
FeatureCollection shape — and on a non-2xx response it fails with the
error message carrying the HTTP status and the response body text. -/
theorem infer_contract (r : Response) :
    (r.resOk = true → ∀ fs fc, r.json = .obj fs → fs.lookup "geojson" = some fc →
      jsFalsy fc = false → infer (.ok r) = .ok fc) ∧
    (r.resOk = true → ∀ fs, r.json = .obj fs → fs.lookup "geojson" = none →
      infer (.ok r) = .ok r.json) ∧
    (r.resOk = false →
      infer (.ok r) =
        .error ("Inference request failed: " ++ toString r.status ++ " " ++ r.bodyText)) := by
  refine ⟨?_, ?_, ?_⟩
  · intro hok fs fc hjson hlook hfc
    simp [infer, hok, hjson, jsGetProp, getPropD, hlook, jsOr, hfc]
  · intro hok fs hjson hlook
    simp [infer, hok, hjson, jsGetProp, getPropD, hlook, jsOr, jsFalsy]
  · intro hok
    simp [infer, hok]

/-- Witness for C8: the wrapped-body response resolves to the wrapped
collection, the bare-body response resolves to the body itself, and the
500 response fails with status and body text in the message. -/
theorem infer_contract_witness :
    (demoResponse.resOk = true ∧ bareResponse.resOk = true ∧ failResponse.resOk = false) ∧
    infer (.ok demoResponse) =
      .ok (.obj [("type", .str "FeatureCollection"), ("features", .arr [demoFeature])]) ∧
    infer (.ok bareResponse) = .ok bareResponse.json ∧
    infer (.ok failResponse) = .error "Inference request failed: 500 boom" := by
  refine ⟨⟨rfl, rfl, rfl⟩, ?_, ?_, ?_⟩
  · exact (infer_contract demoResponse).1 rfl
      [("geojson", .obj [("type", .str "FeatureCollection"), ("features", .arr [demoFeature])])]
      (.obj [("type", .str "FeatureCollection"), ("features", .arr [demoFeature])])
      rfl rfl rfl
  · exact (infer_contract bareResponse).2.1 rfl
      [("type", .str "FeatureCollection"), ("features", .arr [])] rfl rfl
  · have h := (infer_contract failResponse).2.2 rfl
    have heq : ("Inference request failed: " ++ toString failResponse.status ++ " "
        ++ failResponse.bodyText) = "Inference request failed: 500 boom" := rfl
    rw [heq] at h
    exact h

/-! ## Poll-cycle lemmas -/

theorem cellFold_snap_ne (b : Backend) (d : Disaster) (hours : List Nat) :
    ∀ (acc : List Event × Snapshot) (d' : Disaster) (h' : Nat), d' ≠ d →
      (hours.foldl (cellStep b d) acc).2 d' h' = acc.2 d' h' := by
  induction hours with
  | nil => intro acc d' h' _; rfl
  | cons a l ih =>
    intro acc d' h' hne
    rw [List.foldl_cons, ih _ d' h' hne]
    simp [cellStep, snapUpdate, hne]

theorem cellFold_snap_notmem (b : Backend) (d : Disaster) (hours : List Nat) :
    ∀ (acc : List Event × Snapshot) (h : Nat), h ∉ hours →
      (hours.foldl (cellStep b d) acc).2 d h = acc.2 d h := by
  induction hours with
  | nil => intro acc h _; rfl
  | cons a l ih =>
    intro acc h hh
    have h1 : h ≠ a := fun e => hh (e ▸ List.mem_cons_self a l)
    have h2 : h ∉ l := fun e => hh (List.mem_cons_of_mem a e)
    rw [List.foldl_cons, ih _ h h2]
    simp [cellStep, snapUpdate, h1]

theorem cellFold_snap_mem (b : Backend) (d : Disaster) (hours : List Nat) :
    ∀ (acc : List Event × Snapshot) (h : Nat), h ∈ hours →
      (hours.foldl (cellStep b d) acc).2 d h = some (cellOutcome b d h) := by
  induction hours with
  | nil => intro acc h hh; cases hh
  | cons a l ih =>
    intro acc h hh
    by_cases hl : h ∈ l
    · rw [List.foldl_cons]
      exact ih _ h hl
    · have ha : h = a := by
        rcases List.mem_cons.mp hh with h1 | h1
        · exact h1
        · exact absurd h1 hl
      subst ha
      rw [List.foldl_cons, cellFold_snap_notmem b d l _ h hl]
      simp [cellStep, snapUpdate]

theorem cellFold_trace (b : Backend) (d : Disaster) (hours : List Nat) :
    ∀ acc : List Event × Snapshot,
      (hours.foldl (cellStep b d) acc).1 = acc.1 ++ hours.map (Event.request d) := by
  induction hours with
  | nil => intro acc; simp
  | cons a l ih =>
    intro acc
    rw [List.foldl_cons, ih]
    simp [cellStep]

theorem fetchAllCore_unfold (b : Backend) (hours : List Nat) :
    fetchAllCore b hours =
      disasterStep b hours
        (disasterStep b hours
          (disasterStep b hours ([], emptySnapshot) .fires) .floods) .landslides := rfl

theorem core_snap_mem (b : Backend) (hours : List Nat) (d : Disaster) (h : Nat)
    (hh : h ∈ hours) :
    (fetchAllCore b hours).2 d h = some (cellOutcome b d h) := by
  rw [fetchAllCore_unfold]
  cases d with
  | fires =>
    simp only [disasterStep]
    rw [cellFold_snap_ne b .landslides hours _ .fires h (by decide),
      cellFold_snap_ne b .floods hours _ .fires h (by decide)]
    exact cellFold_snap_mem b .fires hours _ h hh
  | floods =>
    simp only [disasterStep]
    rw [cellFold_snap_ne b .landslides hours _ .floods h (by decide)]
    exact cellFold_snap_mem b .floods hours _ h hh
  | landslides =>
    simp only [disasterStep]
    exact cellFold_snap_mem b .landslides hours _ h hh

theorem core_snap_notmem (b : Backend) (hours : List Nat) (d : Disaster) (h : Nat)
    (hh : h ∉ hours) :
    (fetchAllCore b hours).2 d h = none := by
  rw [fetchAllCore_unfold]
  cases d with
  | fires =>
    simp only [disasterStep]
    rw [cellFold_snap_ne b .landslides hours _ .fires h (by decide),
      cellFold_snap_ne b .floods hours _ .fires h (by decide),
      cellFold_snap_notmem b .fires hours _ h hh]
    rfl
  | floods =>
    simp only [disasterStep]
    rw [cellFold_snap_ne b .landslides hours _ .floods h (by decide),
      cellFold_snap_notmem b .floods hours _ h hh,
      cellFold_snap_ne b .fires hours _ .floods h (by decide)]
    rfl
  | landslides =>
    simp only [disasterStep]
    rw [cellFold_snap_notmem b .landslides hours _ h hh,
      cellFold_snap_ne b .floods hours _ .landslides h (by decide),
      cellFold_snap_ne b .fires hours _ .landslides h (by decide)]
    rfl

theorem core_trace (b : Backend) (hours : List Nat) :
    (fetchAllCore b hours).1 =
      hours.map (Event.request .fires) ++ hours.map (Event.request .floods)
        ++ hours.map (Event.request .landslides) := by
  rw [fetchAllCore_unfold]
  simp only [disasterStep]
  rw [cellFold_trace, cellFold_trace, cellFold_trace]
  simp

/-! ## C1 -/

/-- Claim C1: a completed `fetchAll` cycle stores an entry for every
`(disaster, horizon)` pair of the configured grid; a cell whose `infer`
call fails holds the empty feature list, and a cell whose call succeeds
holds exactly the backend's features — independent of every other
cell. -/
theorem cycle_complete_grid (b : Backend) (hours : List Nat) (d : Disaster) (h : Nat)
    (_hd : d ∈ disasters) (hh : h ∈ hours) :
    (fetchAll b hours).2 d h = some (cellOutcome b d h) ∧
    (∀ e, infer (b d h) = .error e → (fetchAll b hours).2 d h = some []) ∧
    (∀ fs xs, infer (b d h) = .ok (.obj fs) → fs.lookup "features" = some (.arr xs) →
      (fetchAll b hours).2 d h = some xs) := by
  have hsnap : (fetchAll b hours).2 d h = some (cellOutcome b d h) :=
    core_snap_mem b hours d h hh
  refine ⟨hsnap, ?_, ?_⟩
  · intro e he
    rw [hsnap]
    simp [cellOutcome, cellFeatures, he]
  · intro fs xs hok hfeat
    rw [hsnap]
    simp [cellOutcome, cellFeatures, hok, jsFalsy, getPropD, hfeat]

/-- Witness for C1 with `demoBackend` (forced failure at
`(floods, 12)`) over horizons `[6, 12]`: the failed cell holds `[]`,
the sibling `(fires, 6)` holds the backend's feature. -/
theorem cycle_complete_grid_witness :
    (Disaster.floods ∈ disasters ∧ (12 : Nat) ∈ [6, 12]) ∧
    (fetchAll demoBackend [6, 12]).2 .floods 12 = some (cellOutcome demoBackend .floods 12) ∧
    cellOutcome demoBackend .floods 12 = [] ∧
    (fetchAll demoBackend [6, 12]).2 .fires 6 = some (cellOutcome demoBackend .fires 6) ∧
    cellOutcome demoBackend .fires 6 = [demoFeature] := by
  refine ⟨⟨by decide, by decide⟩, ?_, rfl, ?_, rfl⟩
  · exact (cycle_complete_grid demoBackend [6, 12] .floods 12 (by decide) (by decide)).1
  · exact (cycle_complete_grid demoBackend [6, 12] .fires 6 (by decide) (by decide)).1

/-! ## C2 -/

theorem core_events_request (b : Backend) (hours : List Nat) :
    ∀ e ∈ (fetchAllCore b hours).1, e.isRequest = true := by
  rw [core_trace]
  intro e he
  rcases List.mem_append.mp he with h1 | h1
  · rcases List.mem_append.mp h1 with h2 | h2 <;>
      · obtain ⟨x, _, rfl⟩ := List.mem_map.mp h2
        rfl
  · obtain ⟨x, _, rfl⟩ := List.mem_map.mp h1
    rfl

/-- Claim C2: one completed cycle publishes exactly one snapshot, as
the last event after every cell resolved, and the published snapshot
holds this cycle's own outcome at every configured cell and nothing at
all (not stale data) outside the configured grid. -/
theorem publish_once_atomic (b : Backend) (hours : List Nat) :
    (fetchAll b hours).1.countP Event.isPublish = 1 ∧
    (fetchAll b hours).1.getLast? = some (.publish (fetchAll b hours).2) ∧
    (∀ d h, h ∈ hours → (fetchAll b hours).2 d h = some (cellOutcome b d h)) ∧
    (∀ d h, h ∉ hours → (fetchAll b hours).2 d h = none) := by
  refine ⟨?_, ?_, ?_, ?_⟩
  · show ((fetchAllCore b hours).1 ++ [Event.publish (fetchAllCore b hours).2]).countP _ = 1
    rw [List.countP_append]
    have h0 : (fetchAllCore b hours).1.countP Event.isPublish = 0 := by
      rw [List.countP_eq_zero]
      intro e he
      have := core_events_request b hours e he
      cases e <;> simp_all [Event.isRequest, Event.isPublish]
    rw [h0]
    rfl
  · show ((fetchAllCore b hours).1 ++ [Event.publish (fetchAllCore b hours).2]).getLast? = _
    simp only [List.getLast?_concat]
    rfl
  · exact fun d h hh => core_snap_mem b hours d h hh
  · exact fun d h hh => core_snap_notmem b hours d h hh

/-- Witness for C2 with `demoBackend` over horizons `[6, 12]`. -/
theorem publish_once_atomic_witness :
    ((6 : Nat) ∈ [6, 12] ∧ (7 : Nat) ∉ [6, 12]) ∧
    (fetchAll demoBackend [6, 12]).1.countP Event.isPublish = 1 ∧
    (fetchAll demoBackend [6, 12]).1.getLast? =
      some (.publish (fetchAll demoBackend [6, 12]).2) ∧
    (fetchAll demoBackend [6, 12]).2 .fires 6 = some (cellOutcome demoBackend .fires 6) ∧
    (fetchAll demoBackend [6, 12]).2 .fires 7 = none := by
  refine ⟨⟨by decide, by decide⟩, ?_, ?_, ?_, ?_⟩
  · exact (publish_once_atomic demoBackend [6, 12]).1
  · exact (publish_once_atomic demoBackend [6, 12]).2.1
  · exact (publish_once_atomic demoBackend [6, 12]).2.2.1 .fires 6 (by decide)
  · exact (publish_once_atomic demoBackend [6, 12]).2.2.2 .fires 7 (by decide)

/-! ## C9 -/

theorem cellFoldSt_fst_eq {σ : Type} (B : BackendSt σ)
    (hdet : ∀ s s' d h, (B s d h).1 = (B s' d h).1) (d : Disaster) (hours : List Nat) :
    ∀ (p p' : Snapshot × σ), p.1 = p'.1 →
      (hours.foldl (cellStepSt B d) p).1 = (hours.foldl (cellStepSt B d) p').1 := by
  induction hours with
  | nil => intro p p' h; exact h
  | cons a l ih =>
    intro p p' h
    rw [List.foldl_cons, List.foldl_cons]
    apply ih
    simp only [cellStepSt, h, hdet p.2 p'.2 d a]

theorem disasterFoldSt_fst_eq {σ : Type} (B : BackendSt σ)
    (hdet : ∀ s s' d h, (B s d h).1 = (B s' d h).1) (hours : List Nat) :
    ∀ (ds : List Disaster) (p p' : Snapshot × σ), p.1 = p'.1 →
      (ds.foldl (disasterStepSt B hours) p).1 = (ds.foldl (disasterStepSt B hours) p').1 := by
  intro ds
  induction ds with
  | nil => intro p p' h; exact h
  | cons d l ih =>
    intro p p' h
    rw [List.foldl_cons, List.foldl_cons]
    exact ih _ _ (cellFoldSt_fst_eq B hdet d hours p p' h)

/-- Claim C9: over a deterministic backend (responses independent of
the backend state), any two executions of the poll cycle — in
particular two consecutive ones — produce value-equal snapshots, and
the cycle's externally visible events are only the per-cell requests
and the single snapshot publish. -/
theorem cycle_idempotent {σ : Type} (B : BackendSt σ) (hours : List Nat)
    (hdet : ∀ s s' d h, (B s d h).1 = (B s' d h).1) (s1 s2 : σ) :
    (fetchAllSt B hours s1).1 = (fetchAllSt B hours s2).1 ∧
    (∀ e ∈ (fetchAll (fun d h => (B s1 d h).1) hours).1,
      e.isRequest = true ∨ e.isPublish = true) := by
  constructor
  · exact disasterFoldSt_fst_eq B hdet hours disasters
      (emptySnapshot, s1) (emptySnapshot, s2) rfl
  · intro e he
    rcases List.mem_append.mp he with h1 | h1
    · exact Or.inl (core_events_request _ hours e h1)
    · rcases List.mem_singleton.mp h1 with rfl
      exact Or.inr rfl

/-- Witness for C9: the counting backend answers identically from any
state, so a cycle started at counter 0 and one started at the
counter left by the first cycle (6 requests) agree. -/
theorem cycle_idempotent_witness :
    (fetchAllSt counterBackend [6, 12] 0).1 =
      (fetchAllSt counterBackend [6, 12] (fetchAllSt counterBackend [6, 12] 0).2).1 := by
  exact (cycle_idempotent counterBackend [6, 12] (fun _ _ _ _ => rfl) 0
    (fetchAllSt counterBackend [6, 12] 0).2).1

/-! ## C4 -/

theorem dropWhile_request_prefix (cs : List (Disaster × Nat)) (rest : List Event) :
    ((cs.map (fun c => Event.request c.1 c.2)) ++ Event.abortAll :: rest).dropWhile
        (fun e => !e.isAbortAll) = Event.abortAll :: rest := by
  induction cs with
  | nil => simp [List.dropWhile, Event.isAbortAll]
  | cons c l ih => simpa [List.dropWhile, Event.isAbortAll] using ih

/-- Claim C4 (amended): unmount does run the cleanup — every handle in
the registry is signalled by a call that never throws, no snapshot of
the interrupted cycle is published, and no new cycle's requests appear
— but the interrupted cycle's loop still issues the requests of all
remaining grid cells after the stop; and merely disabling the overlay
(without unmount) requests no cancellation at all: its trace carries no
abort event, while the same remaining requests are still issued and the
publish is equally suppressed. -/
theorem stop_cancels_but_requests_continue (hours : List Nat) (k : Nat)
    (hk : k ≤ (gridCells hours).length) :
    (fetchAllWithStop hours k).countP Event.isPublish = 0 ∧
    (fetchAllWithStop hours k).countP Event.isAbortAll = 1 ∧
    (fetchAllWithStop hours k).countP Event.isRequest = (gridCells hours).length ∧
    (fetchAllWithStop hours k).dropWhile (fun e => !e.isAbortAll) =
      Event.abortAll :: ((gridCells hours).drop k).map (fun c => Event.request c.1 c.2) ∧
    (fetchAllWithDisable hours k).countP Event.isAbortAll = 0 ∧
    (fetchAllWithDisable hours k).countP Event.isPublish = 0 ∧
    (fetchAllWithDisable hours k).countP Event.isRequest = (gridCells hours).length ∧
    (∀ cs, (abortAllHandles cs).length = cs.length ∧
      ∀ c ∈ abortAllHandles cs, c.aborted = true) := by
  have hpub : ∀ cs : List (Disaster × Nat),
      (cs.map (fun c => Event.request c.1 c.2)).countP Event.isPublish = 0 := by
    intro cs
    induction cs with
    | nil => rfl
    | cons c l ih => simp [List.countP_cons, Event.isPublish, ih]
  have habt : ∀ cs : List (Disaster × Nat),
      (cs.map (fun c => Event.request c.1 c.2)).countP Event.isAbortAll = 0 := by
    intro cs
    induction cs with
    | nil => rfl
    | cons c l ih => simp [List.countP_cons, Event.isAbortAll, ih]
  have hreq : ∀ cs : List (Disaster × Nat),
      (cs.map (fun c => Event.request c.1 c.2)).countP Event.isRequest = cs.length := by
    intro cs
    induction cs with
    | nil => rfl
    | cons c l ih => simp [List.countP_cons, Event.isRequest, ih]
  refine ⟨?_, ?_, ?_, ?_, ?_, ?_, ?_, ?_⟩
  · simp only [fetchAllWithStop, List.countP_append, List.countP_cons, List.countP_nil, hpub]
    rfl
  · simp only [fetchAllWithStop, List.countP_append, List.countP_cons, List.countP_nil, habt]
    rfl
  · simp only [fetchAllWithStop, List.countP_append, List.countP_cons, List.countP_nil, hreq,
      List.length_take, List.length_drop]
    have h1 : Event.isRequest Event.abortAll = false := rfl
    have h2 : (if (false : Bool) = true then 1 else 0) = 0 := rfl
    rw [h1, h2]
    omega
  · have he : fetchAllWithStop hours k =
        ((gridCells hours).take k).map (fun c => Event.request c.1 c.2) ++
          Event.abortAll :: ((gridCells hours).drop k).map (fun c => Event.request c.1 c.2) := by
      simp [fetchAllWithStop]
    rw [he]
    exact dropWhile_request_prefix _ _
  · simp only [fetchAllWithDisable, List.countP_append, habt]
  · simp only [fetchAllWithDisable, List.countP_append, hpub]
  · simp only [fetchAllWithDisable, List.countP_append, hreq,
      List.length_take, List.length_drop]
    omega
  · intro cs
    constructor
    · simp [abortAllHandles]
    · intro c hc
      obtain ⟨c', _, rfl⟩ := List.mem_map.mp hc
      rfl

/-- Claim C4, counterexample: stop the cycle after its first cell over
horizons `[6, 12, 24]` — eight further requests are still registered
after the abort, so "zero further network calls after stop" fails. -/
theorem requests_after_stop_counterexample :
    ((fetchAllWithStop [6, 12, 24] 1).dropWhile (fun e => !e.isAbortAll)).countP
        Event.isRequest = 8 ∧ (8 : Nat) ≠ 0 := by
  constructor
  · rfl
  · decide

/-- Witness for C4's amended theorem at horizons `[6, 12, 24]`,
stop or disable after one cell: the stop trace aborts once and still
carries all nine requests; the disable trace aborts nothing, publishes
nothing, and still carries all nine requests. -/
theorem stop_cancels_but_requests_continue_witness :
    (1 ≤ (gridCells [6, 12, 24]).length) ∧
    (fetchAllWithStop [6, 12, 24] 1).countP Event.isPublish = 0 ∧
    (fetchAllWithStop [6, 12, 24] 1).countP Event.isAbortAll = 1 ∧
    (fetchAllWithStop [6, 12, 24] 1).countP Event.isRequest = (gridCells [6, 12, 24]).length ∧
    (fetchAllWithDisable [6, 12, 24] 1).countP Event.isAbortAll = 0 ∧
    (fetchAllWithDisable [6, 12, 24] 1).countP Event.isPublish = 0 ∧
    (fetchAllWithDisable [6, 12, 24] 1).countP Event.isRequest =
      (gridCells [6, 12, 24]).length := by
  refine ⟨by decide, ?_, ?_, ?_, ?_, ?_, ?_⟩
  · exact (stop_cancels_but_requests_continue [6, 12, 24] 1 (by decide)).1
  · exact (stop_cancels_but_requests_continue [6, 12, 24] 1 (by decide)).2.1
  · exact (stop_cancels_but_requests_continue [6, 12, 24] 1 (by decide)).2.2.1
  · exact (stop_cancels_but_requests_continue [6, 12, 24] 1 (by decide)).2.2.2.2.1
  · exact (stop_cancels_but_requests_continue [6, 12, 24] 1 (by decide)).2.2.2.2.2.1
  · exact (stop_cancels_but_requests_continue [6, 12, 24] 1 (by decide)).2.2.2.2.2.2.1
